import Mathlib

/-!
Verification of the `gstDecoder` streaming frame-capture engine
(`src/codec/gstDecoder.cpp`) via a shallow embedding in Lean.

External GStreamer / CUDA effects (pipeline state changes, bus messages,
sample pulls, memory allocation, the colorspace conversion) are passed in
explicitly as environment values, so every operation of the engine becomes
a pure function from the decoder state and an environment to a result and
a new decoder state.  Classes of this repository that are not part of the
embedded source file (`RingBuffer`, `Event`, `imageFormat` helpers) are
modelled from the specification, as marked on their doc comments.
-/

/-- Video codecs, from `videoOptions::Codec`. -/
inductive Codec where
  | CODEC_UNKNOWN
  | CODEC_RAW
  | CODEC_H264
  | CODEC_H265
  | CODEC_VP8
  | CODEC_VP9
  | CODEC_MPEG2
  | CODEC_MPEG4
  | CODEC_MJPEG
deriving DecidableEq, Repr

/-- Device types, from `videoOptions::DeviceType`. -/
inductive DeviceType where
  | DEVICE_DEFAULT
  | DEVICE_V4L2
  | DEVICE_CSI
  | DEVICE_IP
  | DEVICE_FILE
deriving DecidableEq, Repr

/-- Image pixel formats, from `imageFormat` (the four convertible output
formats named in `gstDecoder::Capture`, plus the NV12 raw format and a
stand-in for any other format). -/
inductive imageFormat where
  | IMAGE_RGB8
  | IMAGE_RGBA8
  | IMAGE_RGB32F
  | IMAGE_RGBA32F
  | IMAGE_NV12
  | IMAGE_UNKNOWN
deriving DecidableEq, Repr

/-- Resource locator, from the `URI` class: protocol, path, extension,
port, and the full string form. -/
structure URI where
  protocol : String
  path : String
  extension : String
  port : Int
  string : String
deriving DecidableEq, Repr

/-- Stream configuration, from `videoOptions` (the fields `gstDecoder`
reads or writes). -/
structure videoOptions where
  resource : URI
  codec : Codec
  width : Nat
  height : Nat
  numBuffers : Nat
  zeroCopy : Bool
  flipMethod : Nat
  deviceType : DeviceType
deriving DecidableEq, Repr

/-- Raw frame bytes. -/
abbrev Frame := List Nat

/-- Modelled from the spec: the `RingBuffer` class lives outside the
embedded source file.  §4.1: a pool of `numBuffers` slots of `bufSize`
bytes; `latestUnread` is the most recently published slot's data when it
has not yet been consumed by a `ReadLatestOnce` read, `none` otherwise. -/
structure RingBuffer (α : Type) where
  allocated : Bool
  numBuffers : Nat
  bufSize : Nat
  latestUnread : Option α
deriving DecidableEq, Repr

/-- An unallocated pool. -/
def RingBuffer.empty {α : Type} : RingBuffer α :=
  { allocated := false, numBuffers := 0, bufSize := 0, latestUnread := none }

/-- Modelled from the spec: `RingBuffer::Alloc` — reallocates when
`count`/`size` differ from the current allocation (invalidating any
published slot), no-op otherwise, and fails when memory cannot be
obtained (`memOk = false`). -/
def RingBuffer.alloc {α : Type} (rb : RingBuffer α) (count size : Nat)
    (zeroCopy : Bool) (memOk : Bool) : Option (RingBuffer α) :=
  if rb.allocated ∧ rb.numBuffers = count ∧ rb.bufSize = size then
    some rb
  else if memOk then
    some { allocated := true, numBuffers := count, bufSize := size,
           latestUnread := none }
  else
    none

/-- Modelled from the spec: `RingBuffer::Peek(Write)` — the next writable
slot, `none` when the pool is unallocated.  Slot identity is irrelevant to
the claims, so the slot is abstracted to `Unit`. -/
def RingBuffer.peekWrite {α : Type} (rb : RingBuffer α) : Option Unit :=
  if rb.allocated then some () else none

/-- Modelled from the spec: `RingBuffer::Next(Write)` after the producer
filled the peeked slot with `d` — publishes `d` as the latest slot
(latest-wins: an unconsumed earlier publication is superseded). -/
def RingBuffer.nextWrite {α : Type} (rb : RingBuffer α) (d : α) : RingBuffer α :=
  { rb with latestUnread := some d }

/-- Modelled from the spec: `RingBuffer::Next(ReadLatestOnce)` — returns
the most recently published slot at most once per publication: `none`
when nothing new has been published since the last read. -/
def RingBuffer.readLatestOnce {α : Type} (rb : RingBuffer α) :
    Option α × RingBuffer α :=
  (rb.latestUnread, { rb with latestUnread := none })

/-- Modelled from the spec: the `Event` wait/wake signal (§4.2), with
pending-wake semantics — multiple wakes before a wait collapse to one. -/
structure Event where
  pendingWake : Bool
deriving DecidableEq, Repr

/-- Modelled from the spec: `Event::Wake` — non-blocking, idempotent. -/
def Event.Wake (e : Event) : Event :=
  { pendingWake := true }

/-- Modelled from the spec: `Event::Wait timeout` — succeeds immediately
on a pending wake (consuming it); otherwise a zero timeout polls and
fails, and a positive timeout succeeds exactly when the environment says
a wake arrived during the wait (`woken`). -/
def Event.Wait (e : Event) (timeout : Nat) (woken : Bool) : Bool × Event :=
  if e.pendingWake then (true, { pendingWake := false })
  else if timeout = 0 then (false, { pendingWake := false })
  else (woken, { pendingWake := false })

/-- Modelled from the spec: `imageFormatSize` — byte size of a frame in
the given output format (RGB8 is `width*height*3` etc.). -/
def imageFormatSize (fmt : imageFormat) (width height : Nat) : Nat :=
  match fmt with
  | .IMAGE_RGB8 => width * height * 3
  | .IMAGE_RGBA8 => width * height * 4
  | .IMAGE_RGB32F => width * height * 12
  | .IMAGE_RGBA32F => width * height * 16
  | .IMAGE_NV12 => width * height * 3 / 2
  | .IMAGE_UNKNOWN => 0

/-- Modelled from the spec: the colorspace-conversion collaborator (§6),
a pure function that fails exactly on output formats outside the
supported set named in `gstDecoder::Capture` (rgb8, rgba8, rgb32f,
rgba32f); the converted bytes themselves are abstracted. -/
def cudaConvertColor (src : Frame) (dstFormat : imageFormat) : Option Frame :=
  match dstFormat with
  | .IMAGE_RGB8 => some src
  | .IMAGE_RGBA8 => some src
  | .IMAGE_RGB32F => some src
  | .IMAGE_RGBA32F => some src
  | _ => none

/-- GStreamer pipeline element state (targets of
`gst_element_set_state`). -/
inductive PipelineState where
  | statePlaying
  | stateNull
deriving DecidableEq, Repr

/-- Return values of `gst_element_set_state`. -/
inductive GstStateChangeReturn where
  | GST_STATE_CHANGE_FAILURE
  | GST_STATE_CHANGE_SUCCESS
  | GST_STATE_CHANGE_ASYNC
  | GST_STATE_CHANGE_NO_PREROLL
deriving DecidableEq, Repr

/-- A message on the pipeline's bus (status/error channel). -/
inductive GstMessage where
  | error (text : String)
  | warning (text : String)
  | info (text : String)
deriving DecidableEq, Repr

/-- The decoder state: the member fields of `class gstDecoder` that the
embedded source file reads or writes.  `mAppSink` abstracts the appsink
pointer to its non-nullness; `pipelineState` records the target of the
last `gst_element_set_state` call; `bus` holds the pending messages of
the pipeline's status/error channel. -/
structure gstDecoder where
  mEOS : Bool
  mStreaming : Bool
  mOptions : videoOptions
  mBufferYUV : RingBuffer Frame
  mBufferRGB : RingBuffer Frame
  mWaitEvent : Event
  mAppSink : Bool
  mLaunchStr : String
  pipelineState : PipelineState
  bus : List GstMessage
deriving DecidableEq, Repr

/-- `gstDecoder::SupportedExtensions`. -/
def SupportedExtensions : List String :=
  ["mkv", "mp4", "qt", "flv", "avi", "h264", "h265"]

/-- `gstDecoder::IsSupportedExtension` — case-insensitive membership
(`strcasecmp`) in `SupportedExtensions`; `none` models a NULL pointer. -/
def IsSupportedExtension (ext : Option String) : Bool :=
  match ext with
  | none => false
  | some e => SupportedExtensions.any (fun s => s = e.toLower)

/-- `gstDecoder::buildLaunchStr`.  `fileExistsB` stands for the
`fileExists(uri.path)` filesystem check.  Returns the launch string and
the options with `deviceType` updated, or `none` where the source logs an
error and returns false.  The GStreamer-1.0 (`GST_CHECK_VERSION(1,0,0)`)
branches are the embedded ones. -/
def gstDecoder.buildLaunchStr (opt : videoOptions) (fileExistsB : Bool) :
    Option (String × videoOptions) :=
  let uri := opt.resource
  let base :=
    if uri.protocol = "file" then
      if ¬fileExistsB then none
      else
        let s := "filesrc location=" ++ opt.resource.path ++ " ! "
        let demux :=
          if uri.extension = "mkv" then some "matroskademux ! "
          else if uri.extension = "mp4" ∨ uri.extension = "qt" then some "qtdemux ! "
          else if uri.extension = "flv" then some "flvdemux ! "
          else if uri.extension = "avi" then some "avidemux ! "
          else if uri.extension ≠ "h264" ∧ uri.extension ≠ "h265" then none
          else some ""
        match demux with
        | none => none
        | some d =>
          let s := s ++ d ++ "queue ! "
          let s := s ++
            (if opt.codec = .CODEC_H264 then "h264parse ! "
             else if opt.codec = .CODEC_H265 then "h265parse ! "
             else if opt.codec = .CODEC_MPEG2 then "mpegvideoparse ! "
             else if opt.codec = .CODEC_MPEG4 then "mpeg4videoparse ! "
             else "")
          some (s, { opt with deviceType := .DEVICE_FILE })
    else if uri.protocol = "rtp" then
      if uri.port ≤ 0 then none
      else
        let s := "udpsrc port=" ++ toString uri.port
        let s := s ++ " multicast-group=" ++ uri.path ++ " auto-multicast=true"
        let s := s ++ " caps=\"" ++
          "application/x-rtp,media=(string)video,clock-rate=(int)90000,encoding-name=(string)"
        let s := s ++
          (if opt.codec = .CODEC_H264 then "H264\" ! rtph264depay ! h264parse ! "
           else if opt.codec = .CODEC_H265 then "H265\" ! rtph265depay ! h265parse ! "
           else if opt.codec = .CODEC_VP8 then "VP8\" ! rtpvp8depay ! "
           else if opt.codec = .CODEC_VP9 then "VP9\" ! rtpvp9depay ! "
           else "")
        some (s, { opt with deviceType := .DEVICE_IP })
    else if uri.protocol = "rtsp" then
      let s := "rtspsrc location=" ++ uri.string
      let s := s ++ " ! queue ! "
      let s := s ++
        (if opt.codec = .CODEC_H264 then "rtph264depay ! h264parse ! "
         else if opt.codec = .CODEC_H265 then "rtph265depay ! h265parse ! "
         else if opt.codec = .CODEC_VP8 then "rtpvp8depay ! "
         else if opt.codec = .CODEC_VP9 then "rtpvp9depay ! "
         else "")
      some (s, { opt with deviceType := .DEVICE_IP })
    else none
  match base with
  | none => none
  | some (s, opt2) =>
    let decStage :=
      if opt2.codec = .CODEC_H264 then some "omxh264dec ! "
      else if opt2.codec = .CODEC_H265 then some "omxh265dec ! "
      else if opt2.codec = .CODEC_VP8 then some "omxvp8dec ! "
      else if opt2.codec = .CODEC_VP9 then some "omxvp9dec ! "
      else if opt2.codec = .CODEC_MPEG2 then some "omxmpeg2videodec ! "
      else if opt2.codec = .CODEC_MPEG4 then some "omxmpeg4videodec ! "
      else none
    match decStage with
    | none => none
    | some ds =>
      let s := s ++ ds
      let s := s ++
        (if (opt2.width ≠ 0 ∧ opt2.height ≠ 0) ∨ opt2.flipMethod ≠ 0 then
          "nvvidconv" ++
          (if opt2.flipMethod ≠ 0 then " flip-method=" ++ toString opt2.flipMethod
           else "") ++
          " ! video/x-raw" ++
          (if opt2.width ≠ 0 ∧ opt2.height ≠ 0 then
            ", width=(int)" ++ toString opt2.width ++ ", height=(int)" ++
              toString opt2.height ++ ", format=(string)NV12"
           else "") ++
          " ! "
         else "video/x-raw ! ")
      let s := s ++ "appsink name=mysink"
      some (s, opt2)

/-- What the decoder can observe of one appsink sample in
`gstDecoder::checkBuffer`: whether `gst_app_sink_pull_sample` returned a
sample (`ok`), whether its caps / buffer / memory map / caps structure
were obtainable, the `width`/`height` integers of the caps structure
(`none` when `gst_structure_get_int` fails), and the mapped bytes with
their size. -/
structure GstSample where
  ok : Bool
  hasCaps : Bool
  hasBuffer : Bool
  mapOk : Bool
  hasCapsStruct : Bool
  widthCaps : Option Int
  heightCaps : Option Int
  data : Frame
  size : Nat
deriving DecidableEq, Repr

/-- `gstDecoder::checkMsgBus` — pops every pending message off the bus
and prints it (`gst_message_print` only logs, so draining the queue is
the whole state effect). -/
def gstDecoder.checkMsgBus (dec : gstDecoder) : gstDecoder :=
  { dec with bus := [] }

/-- `gstDecoder::onEOS` — the end-of-stream appsink callback: sets
`mEOS` and clears `mStreaming`. -/
def gstDecoder.onEOS (dec : gstDecoder) : gstDecoder :=
  { dec with mEOS := true, mStreaming := false }

/-- `gstDecoder::checkBuffer` — the frame-ingestion callback body.
`allocOk` stands for whether memory for `mBufferYUV.Alloc` could be
obtained, should a reallocation be needed.  Every early `release_return`
of the source is a branch returning the decoder unchanged (up to the
mutations already performed at that point). -/
def gstDecoder.checkBuffer (dec : gstDecoder) (s : GstSample) (allocOk : Bool) :
    gstDecoder :=
  if ¬dec.mAppSink then dec
  else if ¬s.ok then dec
  else if ¬s.hasCaps then dec
  else if ¬s.hasBuffer then dec
  else if ¬s.mapOk then dec
  else if ¬s.hasCapsStruct then dec
  else
    match s.widthCaps, s.heightCaps with
    | some width, some height =>
      if width < 1 ∨ height < 1 then dec
      else
        let dec1 := { dec with mOptions :=
          { dec.mOptions with width := width.toNat, height := height.toNat } }
        match dec1.mBufferYUV.alloc dec1.mOptions.numBuffers s.size true allocOk with
        | none => dec1
        | some yuv =>
          let dec2 := { dec1 with mBufferYUV := yuv }
          match dec2.mBufferYUV.peekWrite with
          | none => dec2
          | some _ =>
            { dec2 with
              mBufferYUV := dec2.mBufferYUV.nextWrite s.data,
              mWaitEvent := dec2.mWaitEvent.Wake }
    | _, _ => dec

/-- `gstDecoder::Open`.  `res` is what `gst_element_set_state(mPipeline,
GST_STATE_PLAYING)` returned.  The `#if 0` bus wait after an ASYNC result
is disabled in the source, so an ASYNC result simply falls through to the
two `checkMsgBus` polls around the 100 ms sleep. -/
def gstDecoder.Open (dec : gstDecoder) (res : GstStateChangeReturn) :
    Bool × gstDecoder :=
  if dec.mEOS then (false, dec)
  else if dec.mStreaming then (true, dec)
  else
    let dec1 := { dec with pipelineState := PipelineState.statePlaying }
    if res ≠ .GST_STATE_CHANGE_ASYNC ∧ res ≠ .GST_STATE_CHANGE_SUCCESS then
      (false, dec1)
    else
      let dec2 := (dec1.checkMsgBus).checkMsgBus
      (true, { dec2 with mStreaming := true })

/-- `gstDecoder::Close`.  `res` is what `gst_element_set_state(mPipeline,
GST_STATE_NULL)` returned; a failure there is only logged. -/
def gstDecoder.Close (dec : gstDecoder) (res : GstStateChangeReturn) : gstDecoder :=
  if ¬dec.mStreaming ∧ ¬dec.mEOS then dec
  else
    let dec1 := { dec with pipelineState := PipelineState.stateNull }
    let dec2 := dec1.checkMsgBus
    { dec2 with mStreaming := false }

/-- The external outcomes one `gstDecoder::Capture` call can depend on:
the result of `gst_element_set_state` inside an implicit `Open`, whether
a wake arrived during the `mWaitEvent.Wait` window, and whether memory
for `mBufferRGB.Alloc` could be obtained. -/
structure CaptureEnv where
  openRes : GstStateChangeReturn
  woken : Bool
  rgbAllocOk : Bool
deriving DecidableEq, Repr

/-- `gstDecoder::Capture`.  `outputNull` models a NULL `output` pointer
argument.  Returns the converted frame handed to the caller (`none` on
any failure) and the new decoder state. -/
def gstDecoder.Capture (dec : gstDecoder) (outputNull : Bool)
    (format : imageFormat) (timeout : Nat) (env : CaptureEnv) :
    Option Frame × gstDecoder :=
  if outputNull then (none, dec)
  else
    let o := if dec.mStreaming then (true, dec) else dec.Open env.openRes
    if ¬o.1 then (none, o.2)
    else
      let d1 := o.2
      let w := d1.mWaitEvent.Wait timeout env.woken
      let d2 := { d1 with mWaitEvent := w.2 }
      if ¬w.1 then (none, d2)
      else
        let r := d2.mBufferYUV.readLatestOnce
        let d3 := { d2 with mBufferYUV := r.2 }
        match r.1 with
        | none => (none, d3)
        | some latestYUV =>
          let rgbBufferSize :=
            imageFormatSize format d3.mOptions.width d3.mOptions.height
          match d3.mBufferRGB.alloc d3.mOptions.numBuffers rgbBufferSize
              d3.mOptions.zeroCopy env.rgbAllocOk with
          | none => (none, d3)
          | some rgb =>
            match cudaConvertColor latestYUV format with
            | none => (none, { d3 with mBufferRGB := rgb })
            | some out =>
              (some out, { d3 with mBufferRGB := rgb.nextWrite out })

/-- The external outcomes `gstDecoder::init` depends on: process-wide
`gstreamerInit()`, `gst_parse_launch`, `gst_pipeline_get_bus` and the
`mysink` appsink lookup, plus the `fileExists` filesystem check used by
`buildLaunchStr`. -/
structure InitEnv where
  gstInitOk : Bool
  parseLaunchOk : Bool
  busOk : Bool
  appSinkOk : Bool
  fileExistsB : Bool
deriving DecidableEq, Repr

/-- The freshly constructed decoder state: the `gstDecoder` constructor
sets `mEOS := false` (and the `videoSource` base starts in the Closed
state, `mStreaming := false`); no ring buffer is allocated yet and no
wake is pending. -/
def gstDecoder.initial (opt : videoOptions) (launch : String) : gstDecoder :=
  { mEOS := false
    mStreaming := false
    mOptions := opt
    mBufferYUV := RingBuffer.empty
    mBufferRGB := RingBuffer.empty
    mWaitEvent := { pendingWake := false }
    mAppSink := true
    mLaunchStr := launch
    pipelineState := PipelineState.stateNull
    bus := [] }

/-- `gstDecoder::init` — fails when gstreamer initialization,
`buildLaunchStr`, pipeline parsing, bus retrieval or the appsink lookup
fails; otherwise yields the initial decoder state. -/
def gstDecoder.init (opt : videoOptions) (env : InitEnv) : Option gstDecoder :=
  if ¬env.gstInitOk then none
  else
    match gstDecoder.buildLaunchStr opt env.fileExistsB with
    | none => none
    | some (launch, opt2) =>
      if ¬env.parseLaunchOk then none
      else if ¬env.busOk then none
      else if ¬env.appSinkOk then none
      else some (gstDecoder.initial opt2 launch)

/-- `gstDecoder::Create` — returns NULL (here `none`) whenever `init`
fails. -/
def gstDecoder.Create (opt : videoOptions) (env : InitEnv) : Option gstDecoder :=
  gstDecoder.init opt env

/-- A `file://video.mp4` resource. -/
def uriFileMp4 : URI :=
  { protocol := "file", path := "video.mp4", extension := "mp4",
    port := -1, string := "file://video.mp4" }

/-- Options for decoding an H.264 stream from `video.mp4`, with no
pre-specified output geometry. -/
def optsFileMp4 : videoOptions :=
  { resource := uriFileMp4, codec := .CODEC_H264, width := 0, height := 0,
    numBuffers := 4, zeroCopy := true, flipMethod := 0,
    deviceType := .DEVICE_DEFAULT }

/-- A freshly constructed decoder in the Closed state. -/
def decClosedA : gstDecoder :=
  gstDecoder.initial optsFileMp4 "launch"

/-- C10: a `Capture` call whose `output` pointer is NULL returns false at
once — for every decoder state and every environment, so before the
stream state is consulted, before any implicit `Open`, and before the
wait/wake signal is touched — and leaves the decoder state unchanged. -/
theorem Capture_null_output (dec : gstDecoder) (format : imageFormat)
    (timeout : Nat) (env : CaptureEnv) :
    dec.Capture true format timeout env = (none, dec) := by
  simp [gstDecoder.Capture]

/-- C6: building the launch description for `protocol=file`,
`extension=mp4`, `codec=H264` yields, in this order: a file source stage,
the `qtdemux` demuxer stage, the `h264parse` parser stage, a decoder
stage, and the `appsink name=mysink` ingestion sink stage. -/
theorem buildLaunchStr_file_mp4_h264 :
    (gstDecoder.buildLaunchStr optsFileMp4 true).map Prod.fst =
      some ("filesrc location=video.mp4 ! " ++ "qtdemux ! " ++ "queue ! " ++
        "h264parse ! " ++ "omxh264dec ! " ++ "video/x-raw ! " ++
        "appsink name=mysink") := by
  rfl

/-- C1: immediately after the end-of-stream callback `onEOS` has fired,
`Open` returns false and `Capture` returns false, both leaving the state
exactly unchanged and both uniformly in the environment (so without
consulting the wait/wake signal); and the same still holds after an
intervening `Close`.  Since the state is unchanged, every subsequent call
fails the same way. -/
theorem eos_rejects_open_and_capture (dec : gstDecoder)
    (res res2 r : GstStateChangeReturn) (outputNull : Bool)
    (format : imageFormat) (t t2 : Nat) (env env2 : CaptureEnv) :
    (gstDecoder.onEOS dec).Open res = (false, gstDecoder.onEOS dec) ∧
    (gstDecoder.onEOS dec).Capture outputNull format t env =
      (none, gstDecoder.onEOS dec) ∧
    ((gstDecoder.onEOS dec).Close r).Open res2 =
      (false, (gstDecoder.onEOS dec).Close r) ∧
    ((gstDecoder.onEOS dec).Close r).Capture outputNull format t2 env2 =
      (none, (gstDecoder.onEOS dec).Close r) := by
  cases outputNull <;>
    simp [gstDecoder.onEOS, gstDecoder.Open, gstDecoder.Capture,
      gstDecoder.Close, gstDecoder.checkMsgBus]

/-- A Closed decoder whose bus holds an unrecoverable error message. -/
def decClosedBusErr : gstDecoder :=
  { decClosedA with bus := [GstMessage.error "Internal data stream error."] }

/-- C2 counterexample: the decoder is Closed and an unrecoverable error
message sits on the status/error channel, so the bounded wait-and-poll of
`Open` drains it — yet `Open` returns true and sets the Streaming flag,
because `checkMsgBus` only logs and the result of `Open` depends solely
on the return value of the state-change request. -/
theorem Open_busError_counterexample :
    decClosedBusErr.mStreaming = false ∧ decClosedBusErr.mEOS = false ∧
    decClosedBusErr.bus = [GstMessage.error "Internal data stream error."] ∧
    (decClosedBusErr.Open .GST_STATE_CHANGE_SUCCESS).1 = true ∧
    (decClosedBusErr.Open .GST_STATE_CHANGE_SUCCESS).2.mStreaming = true := by
  decide

/-- C2 (amended): if `Open` is called while the state is Closed and the
backend's state-change request itself fails (returns neither success nor
async), then `Open` returns false and the state remains Closed; error
messages that merely appear on the status/error channel are drained and
logged by the poll but do not affect `Open`'s result. -/
theorem Open_start_failure (dec : gstDecoder) (res : GstStateChangeReturn)
    (heos : dec.mEOS = false) (hstr : dec.mStreaming = false)
    (h1 : res ≠ .GST_STATE_CHANGE_ASYNC)
    (h2 : res ≠ .GST_STATE_CHANGE_SUCCESS) :
    (dec.Open res).1 = false ∧ (dec.Open res).2.mStreaming = false ∧
    (dec.Open res).2.mEOS = false := by
  simp [gstDecoder.Open, heos, hstr, h1, h2]

/-- `Open_start_failure` at a concrete Closed decoder and a concrete
failing state-change result. -/
theorem Open_start_failure_witness :
    (decClosedA.Open .GST_STATE_CHANGE_FAILURE).1 = false ∧
    (decClosedA.Open .GST_STATE_CHANGE_FAILURE).2.mStreaming = false ∧
    (decClosedA.Open .GST_STATE_CHANGE_FAILURE).2.mEOS = false :=
  Open_start_failure decClosedA .GST_STATE_CHANGE_FAILURE rfl rfl
    (by decide) (by decide)

/-- C5: `Close` is idempotent and safe to repeat — a no-op when the
decoder is already Closed and not at EndOfStream; when EndOfStream has
been reached it still transitions the backend to the fully stopped state
and drains the pending status messages while leaving the EndOfStream flag
as-is; and applying `Close` twice equals applying it once. -/
theorem Close_idempotent (dec : gstDecoder) (r r2 : GstStateChangeReturn) :
    (dec.mStreaming = false → dec.mEOS = false → dec.Close r = dec) ∧
    (dec.mEOS = true →
      (dec.Close r).pipelineState = PipelineState.stateNull ∧
      (dec.Close r).bus = [] ∧
      (dec.Close r).mEOS = true ∧
      (dec.Close r).mStreaming = false) ∧
    (dec.Close r).Close r2 = dec.Close r := by
  cases hs : dec.mStreaming <;> cases he : dec.mEOS <;>
    simp [gstDecoder.Close, gstDecoder.checkMsgBus, hs, he]

/-- A decoder that has observed the end-of-stream callback. -/
def decEOSA : gstDecoder :=
  gstDecoder.onEOS decClosedA

/-- `Close_idempotent` applied to a concrete Closed decoder (no-op case,
hypotheses discharged) and to a concrete EndOfStream decoder (stop-drain
and idempotence cases). -/
theorem Close_idempotent_witness :
    decClosedA.Close .GST_STATE_CHANGE_SUCCESS = decClosedA ∧
    (decEOSA.Close .GST_STATE_CHANGE_SUCCESS).pipelineState =
      PipelineState.stateNull ∧
    (decEOSA.Close .GST_STATE_CHANGE_SUCCESS).mEOS = true ∧
    (decEOSA.Close .GST_STATE_CHANGE_SUCCESS).Close .GST_STATE_CHANGE_SUCCESS =
      decEOSA.Close .GST_STATE_CHANGE_SUCCESS :=
  ⟨(Close_idempotent decClosedA .GST_STATE_CHANGE_SUCCESS
      .GST_STATE_CHANGE_SUCCESS).1 rfl rfl,
   ((Close_idempotent decEOSA .GST_STATE_CHANGE_SUCCESS
      .GST_STATE_CHANGE_SUCCESS).2.1 rfl).1,
   ((Close_idempotent decEOSA .GST_STATE_CHANGE_SUCCESS
      .GST_STATE_CHANGE_SUCCESS).2.1 rfl).2.2.1,
   (Close_idempotent decEOSA .GST_STATE_CHANGE_SUCCESS
      .GST_STATE_CHANGE_SUCCESS).2.2⟩

/-- The launch string cannot be built for a file resource whose extension
is outside the supported set. -/
lemma buildLaunchStr_unsupported_extension (opt : videoOptions)
    (fileExistsB : Bool) (hp : opt.resource.protocol = "file")
    (hx : opt.resource.extension ∉ SupportedExtensions) :
    gstDecoder.buildLaunchStr opt fileExistsB = none := by
  simp only [SupportedExtensions, List.mem_cons, List.mem_singleton,
    not_or] at hx
  obtain ⟨h1, h2, h3, h4, h5, h6, h7⟩ := hx
  cases fileExistsB <;>
    simp [gstDecoder.buildLaunchStr, hp, h1, h2, h3, h4, h5, h6, h7]

/-- C7: a construction request for a file resource whose extension lies
outside the supported set {mkv, mp4, qt, flv, avi, h264, h265} fails:
`Create` returns null (no engine object), whatever the other external
conditions are. -/
theorem Create_unsupported_extension (opt : videoOptions) (env : InitEnv)
    (hp : opt.resource.protocol = "file")
    (hx : opt.resource.extension ∉ SupportedExtensions) :
    gstDecoder.Create opt env = none := by
  simp [gstDecoder.Create, gstDecoder.init,
    buildLaunchStr_unsupported_extension opt env.fileExistsB hp hx]

/-- Options naming a `.mov` file resource. -/
def optsFileMov : videoOptions :=
  { optsFileMp4 with resource :=
    { protocol := "file", path := "video.mov", extension := "mov",
      port := -1, string := "file://video.mov" } }

/-- An environment in which every external construction step succeeds. -/
def initEnvAllOk : InitEnv :=
  { gstInitOk := true, parseLaunchOk := true, busOk := true,
    appSinkOk := true, fileExistsB := true }

/-- `Create_unsupported_extension` at the concrete `.mov` resource with
every external step succeeding. -/
theorem Create_unsupported_extension_witness :
    gstDecoder.Create optsFileMov initEnvAllOk = none :=
  Create_unsupported_extension optsFileMov initEnvAllOk rfl (by decide)

/-- C8: an ingested frame whose declared width or height is below 1 is
silently dropped — `checkBuffer` returns with the decoder state exactly
unchanged: no publication, no wake, no update of the stored
width/height. -/
theorem checkBuffer_nonpositive_dims (dec : gstDecoder) (s : GstSample)
    (allocOk : Bool) (w h : Int)
    (hw : s.widthCaps = some w) (hh : s.heightCaps = some h)
    (hlt : w < 1 ∨ h < 1) :
    dec.checkBuffer s allocOk = dec := by
  simp only [gstDecoder.checkBuffer, hw, hh]
  simp [hlt]

/-- A sample whose caps declare a zero width. -/
def sampleZeroWidth : GstSample :=
  { ok := true, hasCaps := true, hasBuffer := true, mapOk := true,
    hasCapsStruct := true, widthCaps := some 0, heightCaps := some 240,
    data := [1, 2, 3], size := 115200 }

/-- `checkBuffer_nonpositive_dims` at a concrete decoder and a concrete
zero-width sample. -/
theorem checkBuffer_nonpositive_dims_witness :
    decClosedA.checkBuffer sampleZeroWidth true = decClosedA :=
  checkBuffer_nonpositive_dims decClosedA sampleZeroWidth true 0 240
    rfl rfl (by decide)

/-- C4: whenever obtaining the sample's capability metadata, its
width/height, or the ring-buffer allocation fails inside the ingestion
callback, the frame is dropped: `checkBuffer` returns without publishing
a slot, without waking the consumer, and without touching the Streaming
or EndOfStream state — the failure is never fatal to the stream. -/
theorem checkBuffer_failure_nonfatal (dec : gstDecoder) (s : GstSample)
    (allocOk : Bool)
    (hfail : s.hasCaps = false ∨ s.hasCapsStruct = false ∨
             s.widthCaps = none ∨ s.heightCaps = none ∨
             dec.mBufferYUV.alloc dec.mOptions.numBuffers s.size true allocOk
               = none) :
    (dec.checkBuffer s allocOk).mStreaming = dec.mStreaming ∧
    (dec.checkBuffer s allocOk).mEOS = dec.mEOS ∧
    (dec.checkBuffer s allocOk).mBufferYUV = dec.mBufferYUV ∧
    (dec.checkBuffer s allocOk).mWaitEvent = dec.mWaitEvent := by
  simp only [gstDecoder.checkBuffer]
  rcases hfail with h | h | h | h | h <;>
    · repeat' split
      all_goals simp_all

/-- A sample whose capability metadata is missing. -/
def sampleNoCaps : GstSample :=
  { ok := true, hasCaps := false, hasBuffer := true, mapOk := true,
    hasCapsStruct := false, widthCaps := none, heightCaps := none,
    data := [], size := 0 }

/-- `checkBuffer_failure_nonfatal` at a concrete decoder and a concrete
caps-less sample. -/
theorem checkBuffer_failure_nonfatal_witness :
    (decClosedA.checkBuffer sampleNoCaps true).mStreaming =
      decClosedA.mStreaming ∧
    (decClosedA.checkBuffer sampleNoCaps true).mEOS = decClosedA.mEOS ∧
    (decClosedA.checkBuffer sampleNoCaps true).mBufferYUV =
      decClosedA.mBufferYUV ∧
    (decClosedA.checkBuffer sampleNoCaps true).mWaitEvent =
      decClosedA.mWaitEvent :=
  checkBuffer_failure_nonfatal decClosedA sampleNoCaps true (Or.inl rfl)

/-- A decoder whose configuration pre-specifies a 640x480 output
geometry. -/
def dec640 : gstDecoder :=
  gstDecoder.initial { optsFileMp4 with width := 640, height := 480 } "launch"

/-- A well-formed 320x240 sample. -/
def sample320 : GstSample :=
  { ok := true, hasCaps := true, hasBuffer := true, mapOk := true,
    hasCapsStruct := true, widthCaps := some 320, heightCaps := some 240,
    data := [1, 2, 3], size := 115200 }

/-- A well-formed 352x288 sample. -/
def sample352 : GstSample :=
  { ok := true, hasCaps := true, hasBuffer := true, mapOk := true,
    hasCapsStruct := true, widthCaps := some 352, heightCaps := some 288,
    data := [4, 5, 6], size := 152064 }

/-- C9 counterexample: the configured width/height were pre-specified
(640x480), yet a single ingested 320x240 frame overwrites them, and a
second ingested frame of yet another size overwrites them again — the
fields are mutated on every ingested frame, not only once and not only
when they were unspecified. -/
theorem config_dims_mutation_counterexample :
    dec640.mOptions.width = 640 ∧ dec640.mOptions.height = 480 ∧
    (dec640.checkBuffer sample320 true).mOptions.width = 320 ∧
    (dec640.checkBuffer sample320 true).mOptions.height = 240 ∧
    ((dec640.checkBuffer sample320 true).checkBuffer sample352 true).mOptions.width
      = 352 := by
  decide

/-- C9 (amended): the stream configuration is immutable after
construction except for the width and height fields, which `checkBuffer`
overwrites with the incoming frame's dimensions on every successfully
parsed frame with positive dimensions — regardless of whether they were
pre-specified; all other configuration fields are untouched by
ingestion. -/
theorem checkBuffer_overwrites_dims (dec : gstDecoder) (s : GstSample)
    (allocOk : Bool) (w h : Int)
    (hsink : dec.mAppSink = true) (hok : s.ok = true)
    (hcaps : s.hasCaps = true) (hbuf : s.hasBuffer = true)
    (hmap : s.mapOk = true) (hstruct : s.hasCapsStruct = true)
    (hw : s.widthCaps = some w) (hh : s.heightCaps = some h)
    (hwp : 1 ≤ w) (hhp : 1 ≤ h) :
    (dec.checkBuffer s allocOk).mOptions.width = w.toNat ∧
    (dec.checkBuffer s allocOk).mOptions.height = h.toNat ∧
    (dec.checkBuffer s allocOk).mOptions.resource = dec.mOptions.resource ∧
    (dec.checkBuffer s allocOk).mOptions.codec = dec.mOptions.codec ∧
    (dec.checkBuffer s allocOk).mOptions.numBuffers =
      dec.mOptions.numBuffers ∧
    (dec.checkBuffer s allocOk).mOptions.zeroCopy = dec.mOptions.zeroCopy ∧
    (dec.checkBuffer s allocOk).mOptions.flipMethod =
      dec.mOptions.flipMethod ∧
    (dec.checkBuffer s allocOk).mOptions.deviceType =
      dec.mOptions.deviceType := by
  have hlt : ¬(w < 1 ∨ h < 1) := by omega
  simp only [gstDecoder.checkBuffer, hsink, hok, hcaps, hbuf, hmap, hstruct,
    hw, hh]
  simp only [hlt]
  repeat' split
  all_goals simp_all

/-- `checkBuffer_overwrites_dims` at the concrete pre-specified 640x480
decoder and the concrete 320x240 sample. -/
theorem checkBuffer_overwrites_dims_witness :
    (dec640.checkBuffer sample320 true).mOptions.width = 320 ∧
    (dec640.checkBuffer sample320 true).mOptions.height = 240 ∧
    (dec640.checkBuffer sample320 true).mOptions.resource =
      dec640.mOptions.resource ∧
    (dec640.checkBuffer sample320 true).mOptions.codec =
      dec640.mOptions.codec ∧
    (dec640.checkBuffer sample320 true).mOptions.numBuffers =
      dec640.mOptions.numBuffers ∧
    (dec640.checkBuffer sample320 true).mOptions.zeroCopy =
      dec640.mOptions.zeroCopy ∧
    (dec640.checkBuffer sample320 true).mOptions.flipMethod =
      dec640.mOptions.flipMethod ∧
    (dec640.checkBuffer sample320 true).mOptions.deviceType =
      dec640.mOptions.deviceType :=
  checkBuffer_overwrites_dims dec640 sample320 true 320 240
    rfl rfl rfl rfl rfl rfl rfl rfl (by decide) (by decide)


/-- When `Open` reports success, the resulting state has the Streaming
flag set. -/
lemma Open_success_streaming (dec st : gstDecoder)
    (res : GstStateChangeReturn) (h : dec.Open res = (true, st)) :
    st.mStreaming = true := by
  by_cases he : dec.mEOS = true
  · have hc : dec.Open res = (false, dec) := by simp [gstDecoder.Open, he]
    rw [hc] at h
    simp at h
  · by_cases hs : dec.mStreaming = true
    · have hc : dec.Open res = (true, dec) := by simp [gstDecoder.Open, he, hs]
      rw [hc] at h
      simp only [Prod.mk.injEq] at h
      rw [← h.2]
      exact hs
    · by_cases hr : res ≠ .GST_STATE_CHANGE_ASYNC ∧
          res ≠ .GST_STATE_CHANGE_SUCCESS
      · have hc : (dec.Open res).1 = false := by
          simp [gstDecoder.Open, he, hs, hr]
        rw [h] at hc
        simp at hc
      · have hc : dec.Open res =
            (true,
              { dec with
                  pipelineState := PipelineState.statePlaying
                  bus := []
                  mStreaming := true }) := by
          simp [gstDecoder.Open, gstDecoder.checkMsgBus, he, hs, hr]
        rw [hc] at h
        simp only [Prod.mk.injEq] at h
        rw [← h.2]

/-- A Streaming decoder whose raw ring buffer holds no publication newer
than the last read fails `Capture`: the read-latest-once retrieval comes
back empty, so no stale frame is re-delivered. -/
lemma Capture_no_unread_fails (d : gstDecoder) (format : imageFormat)
    (t : Nat) (env : CaptureEnv) (hs : d.mStreaming = true)
    (hn : d.mBufferYUV.latestUnread = none) :
    (d.Capture false format t env).1 = none := by
  rcases hW : d.mWaitEvent.Wait t env.woken with ⟨wb, wE⟩
  cases wb <;>
    simp [gstDecoder.Capture, hs, hW, RingBuffer.readLatestOnce, hn]

/-- C3: a frame published once is delivered to the caller at most once —
after a `Capture` call that returned a frame, an immediately following
`Capture` with no new publication in between fails (returns no frame)
rather than re-delivering the previous one, because the read-latest-once
retrieval of the raw ring buffer comes back empty. -/
theorem Capture_at_most_once (dec st : gstDecoder) (f : Frame)
    (format format2 : imageFormat) (t t2 : Nat) (env env2 : CaptureEnv)
    (h : dec.Capture false format t env = (some f, st)) :
    (st.Capture false format2 t2 env2).1 = none := by
  obtain ⟨X, hoEq, hX⟩ :
      ∃ X : gstDecoder,
        (if dec.mStreaming = true then (true, dec) else dec.Open env.openRes)
          = (true, X) ∧ X.mStreaming = true := by
    by_cases hs : dec.mStreaming = true
    · exact ⟨dec, by simp [hs], hs⟩
    · rcases hO : dec.Open env.openRes with ⟨b, X⟩
      cases b
      · exfalso
        have hc : dec.Capture false format t env = (none, X) := by
          simp [gstDecoder.Capture, hs, hO]
        rw [hc] at h
        simp at h
      · exact ⟨X, by simp [hs, hO], Open_success_streaming dec X env.openRes hO⟩
  rcases hW : X.mWaitEvent.Wait t env.woken with ⟨wb, wE⟩
  cases wb
  · exfalso
    have hc : (dec.Capture false format t env).1 = none := by
      simp [gstDecoder.Capture, hoEq, hW]
    rw [h] at hc
    simp at hc
  · cases hL : X.mBufferYUV.latestUnread with
    | none =>
      exfalso
      have hc : (dec.Capture false format t env).1 = none := by
        simp [gstDecoder.Capture, hoEq, hW, RingBuffer.readLatestOnce, hL]
      rw [h] at hc
      simp at hc
    | some latestYUV =>
      cases hA : X.mBufferRGB.alloc X.mOptions.numBuffers
          (imageFormatSize format X.mOptions.width X.mOptions.height)
          X.mOptions.zeroCopy env.rgbAllocOk with
      | none =>
        exfalso
        have hc : (dec.Capture false format t env).1 = none := by
          simp [gstDecoder.Capture, hoEq, hW, RingBuffer.readLatestOnce,
            hL, hA]
        rw [h] at hc
        simp at hc
      | some rgb =>
        cases hC : cudaConvertColor latestYUV format with
        | none =>
          exfalso
          have hc : (dec.Capture false format t env).1 = none := by
            simp [gstDecoder.Capture, hoEq, hW, RingBuffer.readLatestOnce,
              hL, hA, hC]
          rw [h] at hc
          simp at hc
        | some out =>
          have hstate : dec.Capture false format t env =
              (some out,
                { X with
                    mWaitEvent := wE
                    mBufferYUV := { X.mBufferYUV with latestUnread := none }
                    mBufferRGB := rgb.nextWrite out }) := by
            simp [gstDecoder.Capture, hoEq, hW, RingBuffer.readLatestOnce,
              hL, hA, hC]
          rw [hstate] at h
          simp only [Prod.mk.injEq] at h
          rw [← h.2]
          exact Capture_no_unread_fails _ format2 t2 env2 hX rfl

/-- A Streaming decoder holding one published-but-unread 320x240 frame
and a pending wake from its publication. -/
def decStreamingFrame : gstDecoder :=
  { gstDecoder.initial { optsFileMp4 with width := 320, height := 240 }
      "launch" with
      mStreaming := true
      mBufferYUV :=
        { allocated := true, numBuffers := 4, bufSize := 115200,
          latestUnread := some [7, 8, 9] }
      mWaitEvent := { pendingWake := true } }

/-- An environment in which every external step of `Capture` succeeds. -/
def envOkA : CaptureEnv :=
  { openRes := .GST_STATE_CHANGE_SUCCESS, woken := true, rgbAllocOk := true }

/-- `Capture_at_most_once` at a concrete Streaming decoder with one
published frame: the first `Capture` delivers it (hypothesis discharged
by evaluation), the second returns nothing. -/
theorem Capture_at_most_once_witness :
    ((decStreamingFrame.Capture false .IMAGE_RGB8 1000 envOkA).2.Capture
        false .IMAGE_RGB8 1000 envOkA).1 = none :=
  Capture_at_most_once decStreamingFrame
    (decStreamingFrame.Capture false .IMAGE_RGB8 1000 envOkA).2
    [7, 8, 9] .IMAGE_RGB8 .IMAGE_RGB8 1000 1000 envOkA envOkA (by decide)
